import Mathlib

/-!
# Verification of the `api.nfsw` image-scraper service

Shallow embedding of the decision logic of the repository's near-duplicate
server variants:

* `serverA` / `serverB` : the two variants inside `src/server.js`
  (separated by the document separator);
* `part000` .. `part004B` : the variants in `src/unnamed/part_000` ..
  `src/unnamed/part_004` (`part_001` and `part_004` each hold two variants,
  suffixed `A` and `B`).

Browser-side effects (navigation, DOM queries) are modelled as inputs: an
attempt environment carries the anchor `href`s harvested from the search
page, the candidate image sources harvested from the gallery page, and flags
for whether a navigation step throws.  The parsed gallery index
(`parseInt(index, 10)`) is passed in as an `Option Int`, `none` standing for
`NaN`.  Filesystem effects (cache reads/writes, `fs.unlink`) are modelled as
explicit data in the result of each step.
-/

/-- Image record built by every variant:
`{ id: i+1, name: "image_<i+1>.<ext>", url, thumb: url }`. -/
structure Image where
  id : Nat
  name : String
  url : String
  thumb : String
deriving Repr, DecidableEq

/-- JavaScript `haystack.includes(needle)` on the underlying character
lists (`true` when `pat` occurs contiguously in `hay`). -/
def containsChars : List Char → List Char → Bool
  | [], pat => pat.isEmpty
  | c :: cs, pat => pat.isPrefixOf (c :: cs) || containsChars cs pat

/-- JavaScript `String.prototype.includes`. -/
def strContains (s pat : String) : Bool :=
  containsChars s.data pat.data

/-- Case-folded string, for the `/i` regex flag. -/
def strToLower (s : String) : String :=
  ⟨s.data.map Char.toLower⟩

/-- Whether `s` ends with `pat` (via the reversed character lists). -/
def strEndsWith (s pat : String) : Bool :=
  pat.data.reverse.isPrefixOf s.data.reverse

/-- `[...new Set(l)]` — first-occurrence de-duplication preserving
insertion order, as a JavaScript `Set` does.  `seen` accumulates the
elements already emitted. -/
def jsSetDedupAux : List String → List String → List String
  | [], _ => []
  | x :: xs, seen =>
    if x ∈ seen then jsSetDedupAux xs seen
    else x :: jsSetDedupAux xs (x :: seen)

/-- `[...new Set(l)]`. -/
def jsSetDedup (l : List String) : List String :=
  jsSetDedupAux l []

/-- Split a character list at every occurrence of `sep`
(JavaScript `String.prototype.split` with a one-character separator). -/
def splitChars (sep : Char) : List Char → List (List Char)
  | [] => [[]]
  | c :: cs =>
    if c == sep then [] :: splitChars sep cs
    else
      match splitChars sep cs with
      | [] => [[c]]
      | h :: t => (c :: h) :: t

/-- JavaScript `s.split(sep)` for a one-character separator. -/
def jsSplit (s : String) (sep : Char) : List String :=
  (splitChars sep s.data).map fun cs => ⟨cs⟩

/-- `url.split('.').pop().split('?')[0]` — the file extension a variant
derives from an image URL. -/
def jsExt (url : String) : String :=
  (jsSplit ((jsSplit url '.').getLastD "") '?').headD ""

/-- `url.split('.').pop().split('?')[0] || 'jpg'` (the `server.js`
variants add the `'jpg'` fallback for a falsy extension). -/
def jsExtOrJpg (url : String) : String :=
  if jsExt url = "" then "jpg" else jsExt url

/-- `imageUrls.map((url, i) => ({id: i+1, name: ..., url, thumb: url}))`
with the extension function of the given variant. -/
def mkImagesWith (ext : String → String) (urls : List String) : List Image :=
  urls.enum.map fun p =>
    { id := p.1 + 1
      name := "image_" ++ toString (p.1 + 1) ++ "." ++ ext p.2
      url := p.2
      thumb := p.2 }

/-- Image-record list of the `server.js` variants (with the `'jpg'`
fallback). -/
def mkImages_server (urls : List String) : List Image :=
  mkImagesWith jsExtOrJpg urls

/-- Image-record list of `part_000`/`part_001`/`part_002` (no fallback). -/
def mkImages_part000 (urls : List String) : List Image :=
  mkImagesWith jsExt urls

/-! ## Gallery-link assembly (search page)

Each variant harvests anchor `href`s with its selector list — the same
anchor may be pushed once per matching selector, so the input list may
contain duplicates — filters them, and (in all variants except `part_003`)
de-duplicates via `[...new Set(links)]`. -/

/-- `server.js` first variant, lines 132–154: push every selector match
whose `href` `includes('ahottie.net')`, then `[...new Set(links)].slice(0, 15)`. -/
def galleryLinks_serverA (hrefs : List String) : List String :=
  (jsSetDedup (hrefs.filter fun h => strContains h "ahottie.net")).take 15

/-- `part_000` lines 114–120: anchors matching `a[href*="ahottie.net"]`,
kept unless the `href` contains `/page/`, `/search` or `#`; then
`[...new Set(links)]` (no slice). -/
def galleryLinks_part000 (hrefs : List String) : List String :=
  jsSetDedup (hrefs.filter fun h =>
    strContains h "ahottie.net" && !strContains h "/page/" &&
    !strContains h "/search" && !strContains h "#")

/-- `part_001` first variant, lines 163–187 (same filter plus `/?s=`),
then `[...new Set(links)]`. -/
def galleryLinks_part001 (hrefs : List String) : List String :=
  jsSetDedup (hrefs.filter fun h =>
    strContains h "ahottie.net" && !strContains h "/page/" &&
    !strContains h "/search" && !strContains h "/?s=" && !strContains h "#")

/-- `part_003` lines 43–45: `$$eval('.thumb a', ...)` hrefs filtered by
`includes('/gallery/')` — **no de-duplication**. -/
def galleryLinks_part003 (hrefs : List String) : List String :=
  hrefs.filter fun h => strContains h "/gallery/"

/-- `part_004` first variant, lines 138–148: filter out `/page/`,
`/search`, `/?s=`, de-duplicate, then keep links containing `/20` or
`/gallery/`. -/
def galleryLinks_part004A (hrefs : List String) : List String :=
  (jsSetDedup (hrefs.filter fun h =>
      !strContains h "/page/" && !strContains h "/search" &&
      !strContains h "/?s=")).filter
    fun link => strContains link "/20" || strContains link "/gallery/"

/-- `server.js` second variant, lines 775–783: anchors matching
`a[href*="/20"]`, pushed when the `href` `includes('ahottie.net')`, then
`links.slice(0, 10)` — **no de-duplication**. -/
def galleryLinks_serverB (hrefs : List String) : List String :=
  (hrefs.filter fun h => strContains h "ahottie.net").take 10

/-- `part_002` lines 87–94: selector matches kept unless the `href`
contains `/search`, `/page/` or `#`, then `[...new Set(links)]`. -/
def galleryLinks_part002 (hrefs : List String) : List String :=
  jsSetDedup (hrefs.filter fun h =>
    !strContains h "/search" && !strContains h "/page/" && !strContains h "#")

/-- `part_004` second variant, lines 589–604: anchors whose `href`
contains `ahottie.net` and none of `/page/`, `/search`, `/?s=`, then
`[...new Set(links)].slice(0, 20)`. -/
def galleryLinks_part004B (hrefs : List String) : List String :=
  (jsSetDedup (hrefs.filter fun h =>
    strContains h "ahottie.net" && !strContains h "/page/" &&
    !strContains h "/search" && !strContains h "/?s=")).take 20

/-! ## Image-URL extraction (gallery page)

Inputs are the candidate `src` strings collected from `img` elements and
from `background-image` style declarations. -/

/-- `/\.(jpg|jpeg|png|webp|gif)/i` of the first `server.js` variant —
unanchored, so a substring test on the case-folded URL. -/
def extMatch_serverA (url : String) : Bool :=
  [".jpg", ".jpeg", ".png", ".webp", ".gif"].any fun e =>
    strContains (strToLower url) e

/-- `/\.(jpg|jpeg|png|gif|webp|bmp)$/i` of the `part_000`/`part_001`/
`part_002`/`part_004` variants — anchored at the end of the URL. -/
def extMatch_anchored (url : String) : Bool :=
  [".jpg", ".jpeg", ".png", ".gif", ".webp", ".bmp"].any fun e =>
    strEndsWith (strToLower url) e

/-- The source-domain allow-list of `part_001`/`part_004`:
`ahottie.net`, `imgbox.com` or `wp-content` as substrings. -/
def domainAllowed (url : String) : Bool :=
  strContains url "ahottie.net" || strContains url "imgbox.com" ||
  strContains url "wp-content"

/-- `server.js` first variant, lines 193–214: a `Set` fed by the `img`
strategy then the background-image strategy, each filtered by the
unanchored extension regex; `Array.from(urls).slice(0, 20)`. -/
def imageUrls_serverA (imgCands bgCands : List String) : List String :=
  (jsSetDedup (imgCands.filter extMatch_serverA ++
    bgCands.filter extMatch_serverA)).take 20

/-- `part_000` lines 136–151: plain array of candidates passing the
anchored extension regex, `urls.slice(0, 50)`. -/
def imageUrls_part000 (cands : List String) : List String :=
  (cands.filter extMatch_anchored).take 50

/-- `part_001` lines 225–254: anchored extension regex plus the
source-domain allow-list, `urls.slice(0, 50)`. -/
def imageUrls_part001 (cands : List String) : List String :=
  (cands.filter fun u => extMatch_anchored u && domainAllowed u).take 50

/-- `part_002` lines 105–115: anchored extension regex, no domain
filter, `urls.slice(0, 50)`. -/
def imageUrls_part002 (cands : List String) : List String :=
  (cands.filter extMatch_anchored).take 50

/-- `part_004` first variant, lines 174–188: `img` sources only, plain
array, anchored extension regex plus the source-domain allow-list,
`urls.slice(0, 20)`. -/
def imageUrls_part004A (cands : List String) : List String :=
  (cands.filter fun u => extMatch_anchored u && domainAllowed u).take 20

/-- `part_004` second variant, lines 649–681: a `Set` fed by the `img`
strategy (anchored regex plus domain allow-list) then the
background-image strategy (anchored regex); `Array.from(urls).slice(0, 30)`. -/
def imageUrls_part004B (imgCands bgCands : List String) : List String :=
  (jsSetDedup ((imgCands.filter fun s => extMatch_anchored s && domainAllowed s) ++
    bgCands.filter extMatch_anchored)).take 30

/-! ## Index validation and gallery selection -/

/-- The step a variant takes once the gallery links are assembled and the
index is parsed: either navigate to a selected gallery URL, or answer
400. `badRequest` records the discovered link count available for the
response body. -/
inductive IndexStep where
  | navigate (url : String)
  | badRequest (linksFound : Nat)
deriving Repr, DecidableEq

/-- `isNaN(indexNum) || indexNum < 1 || indexNum > galleryLinks.length` —
the invalid-index test of `part_000`/`part_001`/`part_002`/`part_004`
(first variant).  `none` models `NaN`. -/
def indexInvalid (pi : Option Int) (linkCount : Nat) : Bool :=
  match pi with
  | none => true
  | some i => decide (i < 1) || decide (i > (linkCount : Int))

/-- `part_001` first variant, lines 191–204: answer 400 (carrying
`links_found = galleryLinks.length` in the debug body) on an invalid
index, otherwise navigate to `galleryLinks[indexNum - 1]`. -/
def indexStep_part001 (pi : Option Int) (links : List String) : IndexStep :=
  if indexInvalid pi links.length then .badRequest links.length
  else .navigate (links.getD ((pi.getD 0) - 1).toNat "")

/-- `server.js` first variant, line 162:
`Math.max(0, Math.min(galleryLinks.length - 1, parseInt(index) - 1))`
for a numeric parsed index. -/
def galleryIndex_serverA (i : Int) (linkCount : Nat) : Nat :=
  (max 0 (min ((linkCount : Int) - 1) (i - 1))).toNat

/-- `server.js` first variant, lines 162–163: always select
`galleryLinks[galleryIndex]` — there is no 400 branch; an out-of-range
numeric index is clamped into `[0, length-1]`. -/
def indexStep_serverA (i : Int) (links : List String) : IndexStep :=
  .navigate (links.getD (galleryIndex_serverA i links.length) "")

/-- `part_000` lines 122–129: answer 400 on an invalid index (body
`{ error }` only), otherwise navigate to `galleryLinks[idx - 1]`. -/
def indexStep_part000 (pi : Option Int) (links : List String) : IndexStep :=
  if indexInvalid pi links.length then .badRequest links.length
  else .navigate (links.getD ((pi.getD 0) - 1).toNat "")

/-- `part_002` lines 96–101: answer 400 (body `{ error, links_found }`)
on an invalid index, otherwise navigate to `galleryLinks[indexNum - 1]`. -/
def indexStep_part002 (pi : Option Int) (links : List String) : IndexStep :=
  if indexInvalid pi links.length then .badRequest links.length
  else .navigate (links.getD ((pi.getD 0) - 1).toNat "")

/-- `part_004` first variant, lines 153–161: answer 400 (body
`{ error, links_found }`) on an invalid index, otherwise navigate to
`galleryLinks[indexNum - 1]`. -/
def indexStep_part004A (pi : Option Int) (links : List String) : IndexStep :=
  if indexInvalid pi links.length then .badRequest links.length
  else .navigate (links.getD ((pi.getD 0) - 1).toNat "")

/-- `server.js` second variant, line 791:
`Math.max(0, Math.min(galleryLinks.length - 1, parseInt(index) - 1))`. -/
def galleryIndex_serverB (i : Int) (linkCount : Nat) : Nat :=
  (max 0 (min ((linkCount : Int) - 1) (i - 1))).toNat

/-- `server.js` second variant, lines 791–792: no 400 branch — the
numeric index is clamped into range and the handler navigates. -/
def indexStep_serverB (i : Int) (links : List String) : IndexStep :=
  .navigate (links.getD (galleryIndex_serverB i links.length) "")

/-- `part_004` second variant, line 613:
`Math.max(0, Math.min(galleryLinks.length - 1, parseInt(index) - 1))`. -/
def galleryIndex_part004B (i : Int) (linkCount : Nat) : Nat :=
  (max 0 (min ((linkCount : Int) - 1) (i - 1))).toNat

/-- `part_004` second variant, lines 613–614: no 400 branch — the
numeric index is clamped into range and the scraper navigates. -/
def indexStep_part004B (i : Int) (links : List String) : IndexStep :=
  .navigate (links.getD (galleryIndex_part004B i links.length) "")

/-- `part_000` 400 body (line 125): `{ error }` — the discovered link
count is not included. -/
def badRequestFields_part000 : List String := ["error"]

/-- `part_001` 400 body (first variant lines 194–201, second variant
line 484): `{ error, debug }`, the `debug` object carrying
`links_found` and the link list. -/
def badRequestFields_part001 : List String := ["error", "debug"]

/-- `part_002` 400 body (line 98): `{ error, links_found }`. -/
def badRequestFields_part002 : List String := ["error", "links_found"]

/-- `part_004` first variant 400 body (lines 155–158):
`{ error, links_found }`. -/
def badRequestFields_part004A : List String := ["error", "links_found"]

/-! ## Cache consultation -/

/-- What the album handler does after reading the cache file:
serve the parsed list, fall through to a scrape, or (in `part_001`'s
first variant) `fs.unlink` the empty cache file and then scrape. -/
inductive CacheStep where
  | serve (images : List Image)
  | scrape
  | unlinkAndScrape
deriving Repr, DecidableEq

/-- `part_000` lines 45–59 (same shape as `server.js` lines 84–100):
serve the cached list only when `images.length > 0`; a read/parse error
(`none`) or an empty list falls through to the scrape. -/
def cacheCheck_part000 (cache : Option (List Image)) : CacheStep :=
  match cache with
  | some images => if images.length > 0 then .serve images else .scrape
  | none => .scrape

/-- `server.js` first variant, lines 84–100: identical to the
`part_000` cache check. -/
def cacheCheck_serverA (cache : Option (List Image)) : CacheStep :=
  match cache with
  | some images => if images.length > 0 then .serve images else .scrape
  | none => .scrape

/-- `part_001` first variant, lines 71–90: serve when non-empty;
on an empty parsed list `await fs.unlink(cacheFile)` and force a scrape;
on a read error just scrape. -/
def cacheCheck_part001 (cache : Option (List Image)) : CacheStep :=
  match cache with
  | some images => if images.length > 0 then .serve images else .unlinkAndScrape
  | none => .scrape

/-! ## Response shapes

The field-name lists of every JSON response body the album endpoints can
send, copied from the object literals in the source. -/

/-- `server.js` first variant, cache hit (lines 90–96). -/
def cacheFields_serverA : List String :=
  ["model", "index", "album", "total", "source"]

/-- `server.js` first variant, scrape success (lines 252–259). -/
def successFields_serverA : List String :=
  ["model", "index", "album", "total", "source", "note"]

/-- `server.js` first variant, all attempts empty (lines 230–235). -/
def notFoundFields_serverA : List String :=
  ["error", "suggestion"]

/-- `server.js` second variant, cache hit (lines 732–738). -/
def cacheFields_serverB : List String :=
  ["model", "index", "album", "total", "source"]

/-- `server.js` second variant, scrape success (lines 857–864). -/
def successFields_serverB : List String :=
  ["model", "index", "album", "total", "source", "note"]

/-- `server.js` second variant, empty after both attempts (lines 846–851). -/
def notFoundFields_serverB : List String :=
  ["error", "note"]

/-- `server.js` second variant, outer catch — demo images with
status 200 (lines 873–881). -/
def demoFields_serverB : List String :=
  ["model", "index", "album", "total", "source", "note", "error"]

/-- `part_000` cache hit (lines 50–57). -/
def cacheFields_part000 : List String :=
  ["model", "index", "album", "total", "source", "downloads_url"]

/-- `part_000` scrape success (lines 177–186). -/
def successFields_part000 : List String :=
  ["model", "index", "album", "total", "source", "search_url", "gallery_url",
   "downloads_url"]

/-- `part_000` all attempts empty (lines 162–165). -/
def notFoundFields_part000 : List String :=
  ["error", "suggestion"]

/-- `part_001` first variant, cache hit (lines 76–83). -/
def cacheFields_part001A : List String :=
  ["model", "index", "album", "total", "source", "downloads_url"]

/-- `part_001` first variant, scrape success (lines 341–350). -/
def successFields_part001A : List String :=
  ["model", "index", "album", "total", "source", "search_url", "gallery_url",
   "downloads_url"]

/-- `part_001` first variant, all attempts empty (lines 316–326). -/
def notFoundFields_part001A : List String :=
  ["error", "suggestion", "debug"]

/-- `part_001` second variant, cache hit (line 426). -/
def cacheFields_part001B : List String :=
  ["model", "index", "album", "total", "source", "cache_file"]

/-- `part_001` second variant, scrape success (line 522). -/
def successFields_part001B : List String :=
  ["model", "index", "album", "total", "source", "search_url", "gallery_url",
   "cache_file"]

/-- `part_001` second variant, all attempts empty (line 517). -/
def notFoundFields_part001B : List String :=
  ["error"]

/-- `part_002` cache hit (line 47). -/
def cacheFields_part002 : List String :=
  ["model", "index", "album", "total", "source", "downloads_url"]

/-- `part_002` scrape success (line 132). -/
def successFields_part002 : List String :=
  ["model", "index", "album", "total", "source", "search_url", "gallery_url",
   "downloads_url"]

/-- `part_002` all attempts empty (line 127). -/
def notFoundFields_part002 : List String :=
  ["error", "search_url"]

/-- `part_003` album success (line 137): `{ model, index, count, images }`. -/
def successFields_part003 : List String :=
  ["model", "index", "count", "images"]

/-- `part_004` first variant, cache hit (lines 84–91). -/
def cacheFields_part004A : List String :=
  ["model", "index", "album", "total", "source", "downloads_url"]

/-- `part_004` first variant, scrape success (lines 223–230). -/
def successFields_part004A : List String :=
  ["model", "index", "album", "total", "source", "downloads_url"]

/-- `part_004` first variant, all attempts empty (lines 205–208). -/
def notFoundFields_part004A : List String :=
  ["error", "suggestion"]

/-- `part_004` second variant, cache hit (lines 720–727). -/
def cacheFields_part004B : List String :=
  ["model", "index", "album", "total", "source", "cached"]

/-- `part_004` second variant, success / demo fallback (lines 784–792). -/
def successFields_part004B : List String :=
  ["model", "index", "album", "total", "source", "attempts", "status"]

/-- The response fields the spec requires of every success response:
`model`, `index`, `album`, `total`.  Modelled from the spec's words for
comparison with the per-variant field lists above. -/
def specCoreFields : List String :=
  ["model", "index", "album", "total"]

/-! ## Handler outcome -/

/-- Observable outcome of one album request: HTTP status, body field
names, the album served (empty for error bodies), the `source` field
(empty for error bodies), and what — if anything — was written to the
cache file. -/
structure AlbumOutcome where
  status : Nat
  fields : List String
  album : List Image
  source : String
  cacheWrite : Option (List Image)
deriving Repr, DecidableEq

/-- `part_000` cache-hit response (lines 50–57): status 200,
`source: 'cache'`, nothing written. -/
def cacheOutcome_part000 (images : List Image) : AlbumOutcome :=
  { status := 200, fields := cacheFields_part000, album := images,
    source := "cache", cacheWrite := none }

/-- `server.js` first variant cache-hit response (lines 90–96). -/
def cacheOutcome_serverA (images : List Image) : AlbumOutcome :=
  { status := 200, fields := cacheFields_serverA, album := images,
    source := "cache", cacheWrite := none }

/-- `part_000` lines 160–186: empty scrape writes `[]` to the cache file
and answers 404 with `error` and `suggestion`; otherwise the image
records are cached and served with `source: 'ahottie.net'`. -/
def finalize_part000 (urls : List String) : AlbumOutcome :=
  if urls.length = 0 then
    { status := 404, fields := notFoundFields_part000, album := [],
      source := "", cacheWrite := some [] }
  else
    let images := mkImages_part000 urls
    { status := 200, fields := successFields_part000, album := images,
      source := "ahottie.net", cacheWrite := some images }

/-- `part_001` first variant, lines 314–350: same shape as `part_000`
(negative cache write, 404 with `error`, `suggestion` and `debug`). -/
def finalize_part001A (urls : List String) : AlbumOutcome :=
  if urls.length = 0 then
    { status := 404, fields := notFoundFields_part001A, album := [],
      source := "", cacheWrite := some [] }
  else
    let images := mkImages_part000 urls
    { status := 200, fields := successFields_part001A, album := images,
      source := "ahottie.net", cacheWrite := some images }

/-- `part_001` second variant, lines 515–522: negative cache write, but
the 404 body is `{ error }` only. -/
def finalize_part001B (urls : List String) : AlbumOutcome :=
  if urls.length = 0 then
    { status := 404, fields := notFoundFields_part001B, album := [],
      source := "", cacheWrite := some [] }
  else
    let images := mkImages_part000 urls
    { status := 200, fields := successFields_part001B, album := images,
      source := "ahottie.net", cacheWrite := some images }

/-- `part_002` lines 125–132: negative cache write, 404 body
`{ error, search_url }`. -/
def finalize_part002 (urls : List String) : AlbumOutcome :=
  if urls.length = 0 then
    { status := 404, fields := notFoundFields_part002, album := [],
      source := "", cacheWrite := some [] }
  else
    let images := mkImages_part000 urls
    { status := 200, fields := successFields_part002, album := images,
      source := "ahottie.net", cacheWrite := some images }

/-- `part_004` first variant, lines 203–230: negative cache write, 404
body `{ error, suggestion }`. -/
def finalize_part004A (urls : List String) : AlbumOutcome :=
  if urls.length = 0 then
    { status := 404, fields := notFoundFields_part004A, album := [],
      source := "", cacheWrite := some [] }
  else
    let images := mkImages_part000 urls
    { status := 200, fields := successFields_part004A, album := images,
      source := "ahottie.net", cacheWrite := some images }

/-- `server.js` first variant, lines 230–259: on empty `imageUrls` the
handler returns 404 `{ error, suggestion }` **without any cache write**;
otherwise it caches and serves the records. -/
def finalize_serverA (urls : List String) : AlbumOutcome :=
  if urls.length = 0 then
    { status := 404, fields := notFoundFields_serverA, album := [],
      source := "", cacheWrite := none }
  else
    let images := mkImages_server urls
    { status := 200, fields := successFields_serverA, album := images,
      source := "ahottie.net", cacheWrite := some images }

/-- `server.js` second variant, lines 846–864: on an empty image list the
handler returns 404 `{ error, note }` without a cache write; a non-empty
list is cached and served. -/
def finalize_serverB (images : List Image) : AlbumOutcome :=
  if images.length = 0 then
    { status := 404, fields := notFoundFields_serverB, album := [],
      source := "", cacheWrite := none }
  else
    { status := 200, fields := successFields_serverB, album := images,
      source := "ahottie.net", cacheWrite := some images }

/-! ## One scrape attempt

The browser-side observations of a single attempt are an environment:
whether launching/navigating to the search page throws, the anchor
`href`s found there, whether navigating to the selected gallery throws,
and the candidate image sources found on the gallery page. -/

/-- Environment of one scrape attempt. -/
structure AttemptEnv where
  searchFails : Bool
  anchors : List String
  galleryFails : Bool
  imgCands : List String
  bgCands : List String
deriving Repr, DecidableEq

/-- How one iteration of the retry loop ends: a caught exception
(`imageUrls` stays empty and the loop retries), a completed extraction,
or an early 400 response that leaves the whole handler. -/
inductive AttemptExit where
  | retry
  | images (urls : List String)
  | response400 (linksFound : Nat)
deriving Repr, DecidableEq

/-- `part_000` attempt body (lines 67–157), paired with whether the
launched browser is still open when control leaves the attempt.  Every
path — the catch block (lines 155–157), the invalid-index return
(lines 122–126, `await browser.close()` first) and the success path
(line 153) — closes the browser. -/
def attempt_part000 (pi : Option Int) (env : AttemptEnv) : AttemptExit × Bool :=
  if env.searchFails then (.retry, false)
  else
    let links := galleryLinks_part000 env.anchors
    if indexInvalid pi links.length then (.response400 links.length, false)
    else if env.galleryFails then (.retry, false)
    else (.images (imageUrls_part000 (env.imgCands ++ env.bgCands)), false)

/-- `part_001` first-variant attempt body (lines 99–311): same closing
discipline as `part_000` (close before the 400 return at line 193, close
in the catch at lines 305–311, close on success at line 302). -/
def attempt_part001 (pi : Option Int) (env : AttemptEnv) : AttemptExit × Bool :=
  if env.searchFails then (.retry, false)
  else
    let links := galleryLinks_part001 env.anchors
    if indexInvalid pi links.length then (.response400 links.length, false)
    else if env.galleryFails then (.retry, false)
    else (.images (imageUrls_part001 (env.imgCands ++ env.bgCands)), false)

/-- `server.js` first-variant attempt body (lines 112–227): no 400
branch — an empty link list throws (caught, browser closed, retry), and
any index is clamped.  The browser is closed on success (lines 217–218)
and in the catch block (lines 222–225). -/
def attempt_serverA (env : AttemptEnv) : AttemptExit × Bool :=
  if env.searchFails then (.retry, false)
  else
    let links := galleryLinks_serverA env.anchors
    if links.length = 0 then (.retry, false)
    else if env.galleryFails then (.retry, false)
    else (.images (imageUrls_serverA env.imgCands env.bgCands), false)

/-- `part_004` first-variant attempt body (lines 102–200).  Unlike every
sibling variant, the invalid-index return (lines 154–158) sends the 400
response **without** `await browser.close()`, so on that path the
launched browser is still open. -/
def attempt_part004A (pi : Option Int) (env : AttemptEnv) : AttemptExit × Bool :=
  if env.searchFails then (.retry, false)
  else
    let links := galleryLinks_part004A env.anchors
    if indexInvalid pi links.length then (.response400 links.length, true)
    else if env.galleryFails then (.retry, false)
    else (.images (imageUrls_part004A env.imgCands), false)

/-! ## The retry loop

`while (attempts < maxAttempts && imageUrls.length === 0) { attempts++; ... }`
modelled with explicit fuel (`maxAttempts - attempts`); `att n` is the
exit of attempt number `n`. -/

/-- How the retry loop ends: `finished urls a` when the condition fails
after `a` attempts, or `responded n a` when attempt `a` returned the 400
response directly. -/
inductive LoopExit where
  | finished (urls : List String) (attempts : Nat)
  | responded (linksFound : Nat) (attempts : Nat)
deriving Repr, DecidableEq

/-- The retry loop: with `fuel` iterations left, `a` attempts already
made, and `cur` the current `imageUrls`. -/
def runAttempts (att : Nat → AttemptExit) : Nat → Nat → List String → LoopExit
  | 0, a, cur => .finished cur a
  | fuel + 1, a, cur =>
    if cur.length = 0 then
      match att (a + 1) with
      | .images urls => runAttempts att fuel (a + 1) urls
      | .response400 n => .responded n (a + 1)
      | .retry => runAttempts att fuel (a + 1) []
    else .finished cur a

/-- Attempt count at loop exit. -/
def LoopExit.attempts : LoopExit → Nat
  | .finished _ a => a
  | .responded _ a => a

/-- `const maxAttempts = 2` (`server.js`, line 106). -/
def maxAttempts_serverA : Nat := 2

/-- `const maxAttempts = 3` (`part_000`, line 64). -/
def maxAttempts_part000 : Nat := 3

/-- `const maxAttempts = 3` (`part_001`, line 95). -/
def maxAttempts_part001 : Nat := 3

/-- `const maxAttempts = 3` (`part_002`, line 53 — a `for` loop
`attempt = 1..3` with the same `imageUrls.length === 0` condition). -/
def maxAttempts_part002 : Nat := 3

/-- `const maxAttempts = 2` (`part_004` first variant, line 100). -/
def maxAttempts_part004A : Nat := 2

/-! ## Whole album handlers -/

/-- `part_000` 400 response (line 125): `{ error }` only — the
discovered link count is *not* included. -/
def badRequestOutcome_part000 : AlbumOutcome :=
  { status := 400, fields := badRequestFields_part000, album := [], source := "",
    cacheWrite := none }

/-- The whole `part_000` album handler: cache consultation, then the
3-attempt retry loop over `attempt_part000`, then the finalization.
Returns the outcome and the number of scrape attempts (= browser
launches) performed. -/
def album_part000 (cache : Option (List Image)) (pi : Option Int)
    (envs : Nat → AttemptEnv) : AlbumOutcome × Nat :=
  match cacheCheck_part000 cache with
  | .serve images => (cacheOutcome_part000 images, 0)
  | _ =>
    match runAttempts (fun n => (attempt_part000 pi (envs n)).1)
        maxAttempts_part000 0 [] with
    | .finished urls n => (finalize_part000 urls, n)
    | .responded _ n => (badRequestOutcome_part000, n)

/-- The whole `server.js` first-variant album handler: cache
consultation, then the 2-attempt loop over `attempt_serverA`, then the
finalization (no 400 branch exists). -/
def album_serverA (cache : Option (List Image))
    (envs : Nat → AttemptEnv) : AlbumOutcome × Nat :=
  match cacheCheck_serverA cache with
  | .serve images => (cacheOutcome_serverA images, 0)
  | _ =>
    match runAttempts (fun n => (attempt_serverA (envs n)).1)
        maxAttempts_serverA 0 [] with
    | .finished urls n => (finalize_serverA urls, n)
    | .responded _ n =>
      ({ status := 400, fields := ["error"], album := [], source := "",
         cacheWrite := none }, n)

/-! ## Bulk download -/

/-- What happens for one image in the bulk-download loop: the file
already exists (`fs.access` succeeds), the fetch resolves (`part_004`
additionally distinguishes a non-ok status), or the fetch/write throws. -/
inductive DlResult where
  | alreadyPresent
  | fetchOk
  | fetchNotOk (status : Nat)
  | fetchThrew (msg : String)
deriving Repr, DecidableEq

/-- An entry of the `failed` list (image name plus diagnostic). -/
structure FailEntry where
  name : String
  detail : String
deriving Repr, DecidableEq

/-- `part_000` bulk-download loop (lines 205–222): an existing file or a
resolving fetch counts as downloaded (there is no `response.ok` check:
a non-ok response body is still written); only a thrown fetch/write
appends to `failed`, and the loop continues either way. -/
def bulkLoop_part000 : Nat → List FailEntry → List (Image × DlResult) →
    Nat × List FailEntry
  | d, f, [] => (d, f)
  | d, f, (_, .alreadyPresent) :: rest => bulkLoop_part000 (d + 1) f rest
  | d, f, (_, .fetchOk) :: rest => bulkLoop_part000 (d + 1) f rest
  | d, f, (_, .fetchNotOk _) :: rest => bulkLoop_part000 (d + 1) f rest
  | d, f, (img, .fetchThrew e) :: rest =>
    bulkLoop_part000 d (f ++ [⟨img.name, e⟩]) rest

/-- `part_000` bulk download over the cached images zipped with their
download results; the response reports `downloaded`, `total:
images.length` and `failed`. -/
def bulkdownload_part000 (xs : List (Image × DlResult)) : Nat × List FailEntry :=
  bulkLoop_part000 0 [] xs

/-- `part_004` bulk-download loop (lines 272–299): a non-ok response
also appends to `failed` (with the status), a thrown fetch appends (with
the message), and the loop continues either way. -/
def bulkLoop_part004 : Nat → List FailEntry → List (Image × DlResult) →
    Nat × List FailEntry
  | d, f, [] => (d, f)
  | d, f, (_, .alreadyPresent) :: rest => bulkLoop_part004 (d + 1) f rest
  | d, f, (_, .fetchOk) :: rest => bulkLoop_part004 (d + 1) f rest
  | d, f, (img, .fetchNotOk s) :: rest =>
    bulkLoop_part004 d (f ++ [⟨img.name, toString s⟩]) rest
  | d, f, (img, .fetchThrew e) :: rest =>
    bulkLoop_part004 d (f ++ [⟨img.name, e⟩]) rest

/-- `part_004` line 270: `process.env.RENDER ? images.slice(0, 10) :
images` — the images actually processed, whose length is the reported
`total`. -/
def imagesToDownload_part004 (render : Bool) (xs : List (Image × DlResult)) :
    List (Image × DlResult) :=
  if render then xs.take 10 else xs

/-- `part_004` bulk download (lines 266–310). -/
def bulkdownload_part004 (render : Bool) (xs : List (Image × DlResult)) :
    Nat × List FailEntry :=
  bulkLoop_part004 0 [] (imagesToDownload_part004 render xs)

/-- A sample cached image record, used by witnesses. -/
def sampleImage : Image :=
  { id := 1, name := "image_1.jpg", url := "https://ahottie.net/a.jpg",
    thumb := "https://ahottie.net/a.jpg" }

/-- An attempt environment in which nothing is found, used by witnesses. -/
def emptyEnv : AttemptEnv :=
  { searchFails := false, anchors := [], galleryFails := false,
    imgCands := [], bgCands := [] }

/-! ## Helper lemmas -/

/-- Elements emitted by `jsSetDedupAux` never come from `seen`. -/
lemma jsSetDedupAux_not_mem_seen :
    ∀ (l seen : List String) (y : String),
      y ∈ jsSetDedupAux l seen → y ∉ seen := by
  intro l
  induction l with
  | nil => intro seen y h; simp [jsSetDedupAux] at h
  | cons x xs ih =>
    intro seen y h
    simp only [jsSetDedupAux] at h
    by_cases hx : x ∈ seen
    · rw [if_pos hx] at h
      exact ih seen y h
    · rw [if_neg hx] at h
      rcases List.mem_cons.mp h with rfl | h2
      · exact hx
      · intro hy
        exact ih (x :: seen) y h2 (List.mem_cons_of_mem x hy)

/-- `jsSetDedupAux` emits no duplicates. -/
lemma jsSetDedupAux_nodup :
    ∀ (l seen : List String), (jsSetDedupAux l seen).Nodup := by
  intro l
  induction l with
  | nil => intro seen; simp [jsSetDedupAux]
  | cons x xs ih =>
    intro seen
    simp only [jsSetDedupAux]
    by_cases hx : x ∈ seen
    · rw [if_pos hx]
      exact ih seen
    · rw [if_neg hx]
      refine List.nodup_cons.mpr ⟨?_, ih (x :: seen)⟩
      intro hmem
      exact jsSetDedupAux_not_mem_seen xs (x :: seen) x hmem
        (List.mem_cons_self x seen)

/-- A JavaScript `Set` never holds duplicates. -/
lemma jsSetDedup_nodup (l : List String) : (jsSetDedup l).Nodup :=
  jsSetDedupAux_nodup l []

/-- In-range `getD` hits an element of the list. -/
lemma getD_mem_of_lt (l : List String) (n : Nat) (h : n < l.length) :
    l.getD n "" ∈ l := by
  rw [List.getD_eq_getElem l "" h]
  exact List.getElem_mem h

/-- The clamp `Math.max(0, Math.min(L - 1, i - 1))` lands strictly below
`L` whenever at least one link was discovered. -/
lemma clampIndex_lt (i : Int) (L : Nat) (h : 0 < L) :
    (max 0 (min ((L : Int) - 1) (i - 1))).toNat < L := by
  have h1 : min ((L : Int) - 1) (i - 1) ≤ (L : Int) - 1 := min_le_left _ _
  have h2 : max 0 (min ((L : Int) - 1) (i - 1)) ≤ (L : Int) - 1 := by
    apply max_le _ h1
    omega
  have h3 : (0 : Int) ≤ max 0 (min ((L : Int) - 1) (i - 1)) := le_max_left _ _
  omega

/-- The retry loop makes at most `fuel` more attempts. -/
lemma runAttempts_attempts_le (att : Nat → AttemptExit) :
    ∀ (fuel a : Nat) (cur : List String),
      (runAttempts att fuel a cur).attempts ≤ a + fuel := by
  intro fuel
  induction fuel with
  | zero => intro a cur; simp [runAttempts, LoopExit.attempts]
  | succ n ih =>
    intro a cur
    simp only [runAttempts]
    by_cases hc : cur.length = 0
    · rw [if_pos hc]
      cases hatt : att (a + 1) with
      | images urls =>
        dsimp only
        have h := ih (a + 1) urls
        omega
      | response400 m => dsimp only [LoopExit.attempts]; omega
      | retry =>
        dsimp only
        have h := ih (a + 1) []
        omega
    · rw [if_neg hc]
      simp only [LoopExit.attempts]
      omega

/-- The loop condition fails immediately on a non-empty `imageUrls`. -/
lemma runAttempts_finished_of_ne (att : Nat → AttemptExit) :
    ∀ (fuel a : Nat) (cur : List String), cur ≠ [] →
      runAttempts att fuel a cur = .finished cur a := by
  intro fuel a cur h
  cases fuel with
  | zero => rfl
  | succ n =>
    simp only [runAttempts]
    rw [if_neg]
    simpa [List.length_eq_zero] using h

/-- As soon as an attempt yields a non-empty URL list, the loop stops
with that list and that attempt count. -/
lemma runAttempts_early (att : Nat → AttemptExit) (fuel a : Nat)
    (urls : List String) (h1 : att (a + 1) = AttemptExit.images urls)
    (h2 : urls ≠ []) :
    runAttempts att (fuel + 1) a [] = LoopExit.finished urls (a + 1) := by
  have h3 : runAttempts att (fuel + 1) a [] = runAttempts att fuel (a + 1) urls := by
    simp [runAttempts, h1]
  rw [h3]
  exact runAttempts_finished_of_ne att fuel (a + 1) urls h2

/-- Accumulator form of the `part_000` bulk-download counting invariant. -/
lemma bulkLoop_part000_sum :
    ∀ (xs : List (Image × DlResult)) (d : Nat) (f : List FailEntry),
      (bulkLoop_part000 d f xs).1 + (bulkLoop_part000 d f xs).2.length
        = d + f.length + xs.length := by
  intro xs
  induction xs with
  | nil => intro d f; simp [bulkLoop_part000]
  | cons p rest ih =>
    intro d f
    obtain ⟨img, r⟩ := p
    cases r with
    | alreadyPresent =>
      simp only [bulkLoop_part000, List.length_cons]
      have h := ih (d + 1) f
      omega
    | fetchOk =>
      simp only [bulkLoop_part000, List.length_cons]
      have h := ih (d + 1) f
      omega
    | fetchNotOk s =>
      simp only [bulkLoop_part000, List.length_cons]
      have h := ih (d + 1) f
      omega
    | fetchThrew e =>
      simp only [bulkLoop_part000, List.length_cons]
      have h := ih d (f ++ [⟨img.name, e⟩])
      simp only [List.length_append, List.length_cons, List.length_nil] at h
      omega

/-- Accumulator form of the `part_004` bulk-download counting invariant. -/
lemma bulkLoop_part004_sum :
    ∀ (xs : List (Image × DlResult)) (d : Nat) (f : List FailEntry),
      (bulkLoop_part004 d f xs).1 + (bulkLoop_part004 d f xs).2.length
        = d + f.length + xs.length := by
  intro xs
  induction xs with
  | nil => intro d f; simp [bulkLoop_part004]
  | cons p rest ih =>
    intro d f
    obtain ⟨img, r⟩ := p
    cases r with
    | alreadyPresent =>
      simp only [bulkLoop_part004, List.length_cons]
      have h := ih (d + 1) f
      omega
    | fetchOk =>
      simp only [bulkLoop_part004, List.length_cons]
      have h := ih (d + 1) f
      omega
    | fetchNotOk s =>
      simp only [bulkLoop_part004, List.length_cons]
      have h := ih d (f ++ [⟨img.name, toString s⟩])
      simp only [List.length_append, List.length_cons, List.length_nil] at h
      omega
    | fetchThrew e =>
      simp only [bulkLoop_part004, List.length_cons]
      have h := ih d (f ++ [⟨img.name, e⟩])
      simp only [List.length_append, List.length_cons, List.length_nil] at h
      omega

/-- A `slice(0, n)` result has at most `n` elements. -/
lemma take_length_le (n : Nat) (l : List String) : (l.take n).length ≤ n := by
  simp [List.length_take]

/-- Image-record formatting preserves length. -/
lemma mkImagesWith_length (ext : String → String) (urls : List String) :
    (mkImagesWith ext urls).length = urls.length := by
  simp [mkImagesWith]

/-! ## Claims -/

/-- C1 (counterexample): the claim says an out-of-range index always
takes the 400 path and is never silently clamped, but in the first
`server.js` variant the index 5 with a single discovered gallery link is
clamped to position 0 and the handler navigates to that link — no 400 is
produced. -/
theorem C1_serverA_clamps_counterexample :
    indexStep_serverA 5 ["https://ahottie.net/2024/g1"]
      = IndexStep.navigate "https://ahottie.net/2024/g1"
    ∧ indexStep_serverA 5 ["https://ahottie.net/2024/g1"]
      ≠ IndexStep.badRequest 1 := by
  decide

/-- C1 (amended): in the `part_000`, `part_001`, `part_002` and first
`part_004` variants a NaN, below-range or above-range parsed index
always yields the 400 path and never navigates; the 400 body carries
the discovered link count in `part_002` and the first `part_004`
variant (`links_found`) and in `part_001` (inside `debug`), while
`part_000`'s body carries only the error message.  The two `server.js`
variants and the second `part_004` variant have no 400 path: for any
numeric index they clamp into range and navigate to one of the
discovered links. -/
theorem C1_index_validation_amended (pi : Option Int) (links : List String)
    (i : Int) :
    (indexInvalid pi links.length = true →
      indexStep_part000 pi links = IndexStep.badRequest links.length
      ∧ indexStep_part001 pi links = IndexStep.badRequest links.length
      ∧ indexStep_part002 pi links = IndexStep.badRequest links.length
      ∧ indexStep_part004A pi links = IndexStep.badRequest links.length)
    ∧ ("links_found" ∈ badRequestFields_part002
      ∧ "links_found" ∈ badRequestFields_part004A
      ∧ "debug" ∈ badRequestFields_part001
      ∧ badRequestFields_part000 = ["error"])
    ∧ (links ≠ [] →
      (∃ url ∈ links, indexStep_serverA i links = IndexStep.navigate url)
      ∧ (∃ url ∈ links, indexStep_serverB i links = IndexStep.navigate url)
      ∧ (∃ url ∈ links, indexStep_part004B i links = IndexStep.navigate url)) := by
  refine ⟨?_, by decide, ?_⟩
  · intro h
    exact ⟨by simp [indexStep_part000, h], by simp [indexStep_part001, h],
      by simp [indexStep_part002, h], by simp [indexStep_part004A, h]⟩
  · intro h
    have hlen : 0 < links.length := List.length_pos.mpr h
    refine ⟨⟨links.getD (galleryIndex_serverA i links.length) "", ?_, rfl⟩,
      ⟨links.getD (galleryIndex_serverB i links.length) "", ?_, rfl⟩,
      ⟨links.getD (galleryIndex_part004B i links.length) "", ?_, rfl⟩⟩
    · exact getD_mem_of_lt _ _ (clampIndex_lt i links.length hlen)
    · exact getD_mem_of_lt _ _ (clampIndex_lt i links.length hlen)
    · exact getD_mem_of_lt _ _ (clampIndex_lt i links.length hlen)

/-- C1 (witness): index 5 against a single discovered link — `part_000`
and `part_001` answer 400 with discovered count 1; the first
`server.js` variant navigates to a discovered link. -/
theorem C1_index_validation_amended_witness :
    indexStep_part000 (some 5) ["https://ahottie.net/2024/g1"]
      = IndexStep.badRequest 1
    ∧ indexStep_part001 (some 5) ["https://ahottie.net/2024/g1"]
      = IndexStep.badRequest 1
    ∧ ∃ url ∈ ["https://ahottie.net/2024/g1"],
        indexStep_serverA 5 ["https://ahottie.net/2024/g1"]
          = IndexStep.navigate url :=
  ⟨((C1_index_validation_amended (some 5) ["https://ahottie.net/2024/g1"] 5).1
      (by decide)).1,
    ((C1_index_validation_amended (some 5) ["https://ahottie.net/2024/g1"] 5).1
      (by decide)).2.1,
    ((C1_index_validation_amended (some 5) ["https://ahottie.net/2024/g1"] 5).2.2
      (by decide)).1⟩

/-- C2 (counterexample): the claim says a cached empty list is served
again without re-scraping and without deleting the cache file, but on an
empty cached list `part_001` deletes the cache file and forces a scrape,
and `part_000` falls through to a fresh scrape. -/
theorem C2_empty_cache_rescrapes_counterexample :
    cacheCheck_part001 (some []) = CacheStep.unlinkAndScrape
    ∧ cacheCheck_part000 (some []) = CacheStep.scrape := by
  decide

/-- C2 (amended): an empty cached list never short-circuits the album
handler — `part_000` proceeds to a fresh scrape and `part_001` first
deletes the empty cache file — while a non-empty cached list is served
without scraping in both. -/
theorem C2_empty_cache_amended (images : List Image) :
    cacheCheck_part000 (some []) = CacheStep.scrape
    ∧ cacheCheck_part001 (some []) = CacheStep.unlinkAndScrape
    ∧ (images ≠ [] →
        cacheCheck_part000 (some images) = CacheStep.serve images
        ∧ cacheCheck_part001 (some images) = CacheStep.serve images) := by
  refine ⟨by decide, by decide, ?_⟩
  intro h
  have hl : 0 < images.length := List.length_pos.mpr h
  constructor
  · simp [cacheCheck_part000, hl]
  · simp [cacheCheck_part001, hl]

/-- C2 (witness): a one-element cached list is served by both variants. -/
theorem C2_empty_cache_amended_witness :
    cacheCheck_part000 (some [sampleImage]) = CacheStep.serve [sampleImage]
    ∧ cacheCheck_part001 (some [sampleImage]) = CacheStep.serve [sampleImage] :=
  (C2_empty_cache_amended [sampleImage]).2.2 (List.cons_ne_nil _ _)

/-- C3 (counterexample): the claim says every all-empty scrape writes an
empty list to the cache file, but the first `server.js` variant answers
its 404 without any cache write. -/
theorem C3_serverA_no_negative_cache_counterexample :
    (finalize_serverA []).status = 404
    ∧ (finalize_serverA []).cacheWrite = none := by
  decide

/-- C3 (amended): when all attempts produce an empty list, the
`part_000`/`part_001`/`part_002`/`part_004` (first) variants write the
empty sentinel to the cache and answer 404; the body carries a
`suggestion` in `part_000`, the first `part_001` variant and the first
`part_004` variant, but not in the second `part_001` variant or
`part_002`; the `server.js` variants answer 404 without a cache write
(the first with a `suggestion`, the second with a `note`). -/
theorem C3_negative_cache_amended :
    (finalize_part000 []).status = 404
    ∧ (finalize_part000 []).cacheWrite = some []
    ∧ "error" ∈ (finalize_part000 []).fields
    ∧ "suggestion" ∈ (finalize_part000 []).fields
    ∧ (finalize_part001A []).status = 404
    ∧ (finalize_part001A []).cacheWrite = some []
    ∧ "suggestion" ∈ (finalize_part001A []).fields
    ∧ (finalize_part001B []).status = 404
    ∧ (finalize_part001B []).cacheWrite = some []
    ∧ "suggestion" ∉ (finalize_part001B []).fields
    ∧ (finalize_part002 []).status = 404
    ∧ (finalize_part002 []).cacheWrite = some []
    ∧ "suggestion" ∉ (finalize_part002 []).fields
    ∧ (finalize_part004A []).status = 404
    ∧ (finalize_part004A []).cacheWrite = some []
    ∧ "suggestion" ∈ (finalize_part004A []).fields
    ∧ (finalize_serverA []).cacheWrite = none
    ∧ "suggestion" ∈ (finalize_serverA []).fields
    ∧ (finalize_serverB []).status = 404
    ∧ (finalize_serverB []).cacheWrite = none
    ∧ "suggestion" ∉ (finalize_serverB []).fields
    ∧ "note" ∈ (finalize_serverB []).fields := by
  decide

/-- C4: a cache file that parses to a non-empty image list
short-circuits the album handler in both cited variants: the cached list
is returned with status 200 and `source: 'cache'`, and zero scrape
attempts (hence zero browser launches) are made. -/
theorem C4_cache_short_circuit (images : List Image) (pi : Option Int)
    (envs envsB : Nat → AttemptEnv) (h : images ≠ []) :
    album_part000 (some images) pi envs = (cacheOutcome_part000 images, 0)
    ∧ album_serverA (some images) envsB = (cacheOutcome_serverA images, 0)
    ∧ (cacheOutcome_part000 images).source = "cache"
    ∧ (cacheOutcome_serverA images).source = "cache"
    ∧ (cacheOutcome_part000 images).album = images
    ∧ (cacheOutcome_serverA images).album = images
    ∧ (cacheOutcome_part000 images).status = 200
    ∧ (cacheOutcome_serverA images).status = 200 := by
  have hl : 0 < images.length := List.length_pos.mpr h
  refine ⟨?_, ?_, rfl, rfl, rfl, rfl, rfl, rfl⟩
  · simp [album_part000, cacheCheck_part000, hl]
  · simp [album_serverA, cacheCheck_serverA, hl]

/-- C4 (witness): a concrete one-element cached list short-circuits both
handlers with zero attempts. -/
theorem C4_cache_short_circuit_witness :
    album_part000 (some [sampleImage]) none (fun _ => emptyEnv)
      = (cacheOutcome_part000 [sampleImage], 0)
    ∧ album_serverA (some [sampleImage]) (fun _ => emptyEnv)
      = (cacheOutcome_serverA [sampleImage], 0) :=
  ⟨(C4_cache_short_circuit [sampleImage] none (fun _ => emptyEnv)
      (fun _ => emptyEnv) (List.cons_ne_nil _ _)).1,
    (C4_cache_short_circuit [sampleImage] none (fun _ => emptyEnv)
      (fun _ => emptyEnv) (List.cons_ne_nil _ _)).2.1⟩

/-- C5 (counterexample): the claim says every variant's success response
contains `model`, `index`, `album` and `total`, but the `part_003`
album success response carries `count` and `images` instead of `album`
and `total`. -/
theorem C5_part003_shape_counterexample :
    "album" ∉ successFields_part003 ∧ "total" ∉ successFields_part003 := by
  decide

/-- Whether a response field list carries all four spec-required core
fields. -/
def hasCoreFields (l : List String) : Bool :=
  specCoreFields.all l.contains

/-- C5 (amended): every success response of the album endpoint — the
cache-hit, scrape-success and demo-fallback bodies of every variant —
contains `model`, `index`, `album` and `total`, except `part_003`,
whose success response instead contains `model`, `index`, `count`,
`images`. -/
theorem C5_response_shape_amended :
    hasCoreFields cacheFields_serverA = true
    ∧ hasCoreFields successFields_serverA = true
    ∧ hasCoreFields cacheFields_serverB = true
    ∧ hasCoreFields successFields_serverB = true
    ∧ hasCoreFields demoFields_serverB = true
    ∧ hasCoreFields cacheFields_part000 = true
    ∧ hasCoreFields successFields_part000 = true
    ∧ hasCoreFields cacheFields_part001A = true
    ∧ hasCoreFields successFields_part001A = true
    ∧ hasCoreFields cacheFields_part001B = true
    ∧ hasCoreFields successFields_part001B = true
    ∧ hasCoreFields cacheFields_part002 = true
    ∧ hasCoreFields successFields_part002 = true
    ∧ hasCoreFields cacheFields_part004A = true
    ∧ hasCoreFields successFields_part004A = true
    ∧ hasCoreFields cacheFields_part004B = true
    ∧ hasCoreFields successFields_part004B = true
    ∧ hasCoreFields successFields_part003 = false := by
  decide

/-- C6: in both bulk-download variants each image either increments the
downloaded counter or appends one entry to the `failed` list — no
failure aborts the loop — so the downloaded count plus the number of
failed entries equals the number of images processed, which is exactly
the reported `total` (`images.length` in `part_000`, the length of the
possibly sliced `imagesToDownload` in `part_004`). -/
theorem C6_bulk_download_invariant (xs : List (Image × DlResult))
    (render : Bool) :
    (bulkdownload_part000 xs).1 + (bulkdownload_part000 xs).2.length
      = xs.length
    ∧ (bulkdownload_part004 render xs).1
        + (bulkdownload_part004 render xs).2.length
      = (imagesToDownload_part004 render xs).length := by
  constructor
  · have h := bulkLoop_part000_sum xs 0 []
    simpa [bulkdownload_part000] using h
  · have h := bulkLoop_part004_sum (imagesToDownload_part004 render xs) 0 []
    simpa [bulkdownload_part004] using h

/-- C7 (code bug): the `part_000`, `part_001` and `server.js` attempt
bodies close the browser on every exit path, but the first `part_004`
variant's invalid-index return sends the 400 response with the launched
browser still open: with no links found (so any index is out of range)
the attempt exits on the 400 path with the browser-open flag `true`. -/
theorem C7_part004A_browser_leak :
    (∀ (pi : Option Int) (env : AttemptEnv), (attempt_part000 pi env).2 = false)
    ∧ (∀ (pi : Option Int) (env : AttemptEnv), (attempt_part001 pi env).2 = false)
    ∧ (∀ (env : AttemptEnv), (attempt_serverA env).2 = false)
    ∧ attempt_part004A (some 1) emptyEnv = (AttemptExit.response400 0, true) := by
  refine ⟨?_, ?_, ?_, by decide⟩
  · intro pi env
    unfold attempt_part000
    dsimp only
    repeat' split
    all_goals rfl
  · intro pi env
    unfold attempt_part001
    dsimp only
    repeat' split
    all_goals rfl
  · intro env
    unfold attempt_serverA
    dsimp only
    repeat' split
    all_goals rfl

/-- C8 (counterexample): the claim says every scrape's gallery link list
is de-duplicated, but `part_003` keeps duplicates: two anchors with the
same gallery `href` yield a list with that URL twice. -/
theorem C8_part003_duplicates_counterexample :
    ¬ (galleryLinks_part003
        ["https://ahottie.net/gallery/a", "https://ahottie.net/gallery/a"]).Nodup := by
  decide

/-- C8 (amended): in the first `server.js` variant and the `part_000`,
`part_001`, `part_002` and `part_004` variants the assembled gallery
link list never contains a duplicate URL (the `Set` keeps first
occurrences); `part_003` and the second `server.js` variant perform no
de-duplication, and their link lists can repeat a URL — two anchors
with the same `href` give the second `server.js` variant a duplicated
list. -/
theorem C8_link_dedup_amended (hrefs : List String) :
    (galleryLinks_serverA hrefs).Nodup
    ∧ (galleryLinks_part000 hrefs).Nodup
    ∧ (galleryLinks_part001 hrefs).Nodup
    ∧ (galleryLinks_part002 hrefs).Nodup
    ∧ (galleryLinks_part004A hrefs).Nodup
    ∧ (galleryLinks_part004B hrefs).Nodup
    ∧ ¬ (galleryLinks_serverB
          ["https://ahottie.net/2024/a", "https://ahottie.net/2024/a"]).Nodup := by
  refine ⟨?_, jsSetDedup_nodup _, jsSetDedup_nodup _, jsSetDedup_nodup _,
    ?_, ?_, by decide⟩
  · exact List.Nodup.sublist (List.take_sublist _ _) (jsSetDedup_nodup _)
  · exact List.Nodup.filter _ (jsSetDedup_nodup _)
  · exact List.Nodup.sublist (List.take_sublist _ _) (jsSetDedup_nodup _)

/-- C9: the retry loop makes at most `fuel` further attempts — in
particular at most 3 for `part_000`/`part_001`/`part_002` and at most 2
for `server.js`/`part_004` — and stops with the current attempt's result
as soon as an attempt yields a non-empty image-URL list. -/
theorem C9_retry_loop_bounded :
    (∀ (att : Nat → AttemptExit) (fuel a : Nat) (cur : List String),
        (runAttempts att fuel a cur).attempts ≤ a + fuel)
    ∧ (∀ (att : Nat → AttemptExit),
        (runAttempts att maxAttempts_part000 0 []).attempts ≤ 3
        ∧ (runAttempts att maxAttempts_serverA 0 []).attempts ≤ 2
        ∧ (runAttempts att maxAttempts_part001 0 []).attempts ≤ 3
        ∧ (runAttempts att maxAttempts_part002 0 []).attempts ≤ 3
        ∧ (runAttempts att maxAttempts_part004A 0 []).attempts ≤ 2)
    ∧ (∀ (att : Nat → AttemptExit) (fuel a : Nat) (urls : List String),
        att (a + 1) = AttemptExit.images urls → urls ≠ [] →
        runAttempts att (fuel + 1) a [] = LoopExit.finished urls (a + 1)) := by
  refine ⟨runAttempts_attempts_le, ?_, runAttempts_early⟩
  intro att
  exact ⟨by simpa using runAttempts_attempts_le att 3 0 [],
    by simpa using runAttempts_attempts_le att 2 0 [],
    by simpa using runAttempts_attempts_le att 3 0 [],
    by simpa using runAttempts_attempts_le att 3 0 [],
    by simpa using runAttempts_attempts_le att 2 0 []⟩

/-- C9 (witness): a first attempt that finds one URL stops the loop at
attempt 1 even with the `part_000` cap of 3, and the cap holds for a
loop whose attempts all fail. -/
theorem C9_retry_loop_bounded_witness :
    runAttempts (fun _ => AttemptExit.images ["https://ahottie.net/a.jpg"])
        maxAttempts_part000 0 []
      = LoopExit.finished ["https://ahottie.net/a.jpg"] 1
    ∧ (runAttempts (fun _ => AttemptExit.retry)
        maxAttempts_part000 0 []).attempts ≤ 3 :=
  ⟨C9_retry_loop_bounded.2.2 _ 2 0 _ rfl (by decide),
    (C9_retry_loop_bounded.2.1 _).1⟩

/-- C10: the extracted image-URL list is truncated to the variant's hard
cap — 20 in the first `server.js` variant, 50 in
`part_000`/`part_001`/`part_002`, 30 in the second `part_004` variant —
and the image-record lists cached and returned inherit the same bound. -/
theorem C10_extraction_caps (a b c : List String) :
    (imageUrls_serverA a b).length ≤ 20
    ∧ (imageUrls_part000 c).length ≤ 50
    ∧ (imageUrls_part001 c).length ≤ 50
    ∧ (imageUrls_part002 c).length ≤ 50
    ∧ (imageUrls_part004B a b).length ≤ 30
    ∧ (mkImages_server (imageUrls_serverA a b)).length ≤ 20
    ∧ (mkImages_part000 (imageUrls_part000 c)).length ≤ 50
    ∧ (finalize_part000 (imageUrls_part000 c)).album.length ≤ 50
    ∧ (finalize_serverA (imageUrls_serverA a b)).album.length ≤ 20 := by
  refine ⟨take_length_le _ _, take_length_le _ _, take_length_le _ _,
    take_length_le _ _, take_length_le _ _, ?_, ?_, ?_, ?_⟩
  · rw [mkImages_server, mkImagesWith_length]
    exact take_length_le _ _
  · rw [mkImages_part000, mkImagesWith_length]
    exact take_length_le _ _
  · unfold finalize_part000
    split
    · simp
    · dsimp only
      rw [mkImages_part000, mkImagesWith_length]
      exact take_length_le _ _
  · unfold finalize_serverA
    split
    · simp
    · dsimp only
      rw [mkImages_server, mkImagesWith_length]
      exact take_length_le _ _
